import Mathlib

set_option maxHeartbeats 1000000

/-!
Shallow embedding of the NYC Citi Bike station-status pipeline
(`src/helpers.py` and `src/app.py`).

DataFrames are modelled as lists of records.  The geodesic distance
computed by `geopy.distance.geodesic` is an external library call on
floating-point coordinates; it enters every theorem as an explicit
function parameter `distf : ℚ × ℚ → ℚ × ℚ → ℚ`, so the statements hold
for every possible distance function, the real geodesic included.
-/

/-- Bike-type mode as used by the app.  `app.py` passes
`modes = [bike_type_value] if bike_type_value else []` where
`bike_type_value ∈ {"mechanical", "ebike"}`; after
`get_bike_availability` synthesizes both columns (helpers.py:100-103),
`mode in df.columns` is always true for these two modes. -/
inductive BikeMode where
  | mechanical
  | ebike
deriving DecidableEq, Repr

/-- A row of the station snapshot as consumed by the proximity
resolvers (`helpers.py:97-136`): identity, geography and counts. -/
structure Station where
  station_id : String
  lat : ℚ
  lon : ℚ
  num_bikes_available : Int
  num_docks_available : Int
  mechanical : Int
  ebike : Int
deriving DecidableEq, Repr

/-- The sub-count column selected by a bike-type mode
(`df[mode]` at helpers.py:112). -/
def subCount (s : Station) : BikeMode → Int
  | .mechanical => s.mechanical
  | .ebike => s.ebike

/-- One step of pandas `idxmin` scanning: keep the accumulator unless the
next row's distance is strictly smaller (so the first minimum wins, as
`idxmin` returns the first index attaining the minimum). -/
def pickMin {α : Type} (acc x : α × ℚ) : α × ℚ :=
  if x.2 < acc.2 then x else acc

/-- First row attaining the minimal distance, i.e.
`df.loc[df['distance'].idxmin()]` (helpers.py:120, 135). -/
def argminFirst {α : Type} (hd : α × ℚ) (tl : List (α × ℚ)) : α × ℚ :=
  tl.foldl pickMin hd

/-- `get_bike_availability` (helpers.py:97-121): copy the frame, ensure
the `mechanical`/`ebike` columns exist (always the case here, see
`BikeMode`), add a distance column, apply the bike-type mode filter,
then the `num_bikes_available > 0` filter, and return the first row of
minimal distance, or `none` when nothing survives. -/
def get_bike_availability (distf : ℚ × ℚ → ℚ × ℚ → ℚ) (latlon : ℚ × ℚ)
    (df : List Station) (input_bike_modes : List BikeMode) :
    Option (String × ℚ × ℚ) :=
  let withDist : List (Station × ℚ) :=
    df.map (fun s => (s, distf latlon (s.lat, s.lon)))
  let afterMode :=
    match input_bike_modes with
    | [m] => withDist.filter (fun (p : Station × ℚ) => decide (0 < subCount p.1 m))
    | _ => withDist.filter
        (fun (p : Station × ℚ) => decide (0 < p.1.mechanical) || decide (0 < p.1.ebike))
  let afterBikes := afterMode.filter
    (fun (p : Station × ℚ) => decide (0 < p.1.num_bikes_available))
  match afterBikes with
  | [] => none
  | h :: t =>
    let c := argminFirst h t
    some (c.1.station_id, c.1.lat, c.1.lon)

/-- `get_dock_availability` (helpers.py:124-136): distance column, keep
rows with `num_docks_available > 0`, first row of minimal distance. -/
def get_dock_availability (distf : ℚ × ℚ → ℚ × ℚ → ℚ) (latlon : ℚ × ℚ)
    (df : List Station) : Option (String × ℚ × ℚ) :=
  let withDist := df.map (fun s => (s, distf latlon (s.lat, s.lon)))
  let afterDocks := withDist.filter (fun p => decide (0 < p.1.num_docks_available))
  match afterDocks with
  | [] => none
  | h :: t =>
    let c := argminFirst h t
    some (c.1.station_id, c.1.lat, c.1.lon)

/-- The candidates surviving the bike search's mode and availability
filters, expressed on station rows (the `distance` column does not
affect filtering). -/
def bikeSurvivors (df : List Station) (modes : List BikeMode) : List Station :=
  let afterMode :=
    match modes with
    | [m] => df.filter (fun s => decide (0 < subCount s m))
    | _ => df.filter
        (fun s => decide (0 < s.mechanical) || decide (0 < s.ebike))
  afterMode.filter (fun s => decide (0 < s.num_bikes_available))

/-- Candidates surviving the dock search's availability filter. -/
def dockSurvivors (df : List Station) : List Station :=
  df.filter (fun s => decide (0 < s.num_docks_available))

theorem filter_map_comm {α β : Type} (f : α → β) (p : β → Bool) :
    ∀ l : List α, (l.map f).filter p = (l.filter (fun a => p (f a))).map f := by
  intro l
  induction l with
  | nil => rfl
  | cons a t ih =>
    simp only [List.map_cons, List.filter_cons]
    cases h : p (f a) <;> simp [h, ih]

theorem argminFirst_mem {α : Type} (hd : α × ℚ) (tl : List (α × ℚ)) :
    argminFirst hd tl = hd ∨ argminFirst hd tl ∈ tl := by
  induction tl generalizing hd with
  | nil => exact Or.inl rfl
  | cons x xs ih =>
    have h := ih (pickMin hd x)
    simp only [argminFirst, List.foldl_cons] at *
    rcases h with h | h
    · rw [h]
      unfold pickMin
      split
      · exact Or.inr (List.mem_cons_self _ _)
      · exact Or.inl rfl
    · exact Or.inr (List.mem_cons_of_mem _ h)

theorem argminFirst_le {α : Type} (hd : α × ℚ) (tl : List (α × ℚ)) :
    (argminFirst hd tl).2 ≤ hd.2 ∧ ∀ x ∈ tl, (argminFirst hd tl).2 ≤ x.2 := by
  induction tl generalizing hd with
  | nil => exact ⟨le_refl _, by intro x hx; cases hx⟩
  | cons x xs ih =>
    have h := ih (pickMin hd x)
    simp only [argminFirst, List.foldl_cons] at *
    have hhd : (pickMin hd x).2 ≤ hd.2 := by
      unfold pickMin
      split
      · exact le_of_lt (by assumption)
      · exact le_refl _
    have hx : (pickMin hd x).2 ≤ x.2 := by
      unfold pickMin
      split
      · exact le_refl _
      · exact le_of_not_lt (by assumption)
    refine ⟨le_trans h.1 hhd, ?_⟩
    intro y hy
    rcases List.mem_cons.mp hy with rfl | hy
    · exact le_trans h.1 hx
    · exact h.2 y hy

/-- The first-minimal-distance selection on a list of candidate rows,
shared by both resolvers after their filters. -/
def nearestOf (distf : ℚ × ℚ → ℚ × ℚ → ℚ) (latlon : ℚ × ℚ)
    (L : List Station) : Option (String × ℚ × ℚ) :=
  match L.map (fun s => (s, distf latlon (s.lat, s.lon))) with
  | [] => none
  | h :: t =>
    let c := argminFirst h t
    some (c.1.station_id, c.1.lat, c.1.lon)

theorem get_bike_availability_eq_survivors (distf : ℚ × ℚ → ℚ × ℚ → ℚ)
    (latlon : ℚ × ℚ) (df : List Station) (modes : List BikeMode) :
    get_bike_availability distf latlon df modes =
      nearestOf distf latlon (bikeSurvivors df modes) := by
  unfold get_bike_availability bikeSurvivors nearestOf
  cases modes with
  | nil => simp only [filter_map_comm]
  | cons m rest =>
    cases rest with
    | nil => simp only [filter_map_comm]
    | cons m2 rest2 => simp only [filter_map_comm]

theorem get_dock_availability_eq_survivors (distf : ℚ × ℚ → ℚ × ℚ → ℚ)
    (latlon : ℚ × ℚ) (df : List Station) :
    get_dock_availability distf latlon df =
      nearestOf distf latlon (dockSurvivors df) := by
  unfold get_dock_availability dockSurvivors nearestOf
  simp only [filter_map_comm]

theorem nearestOf_spec (distf : ℚ × ℚ → ℚ × ℚ → ℚ) (latlon : ℚ × ℚ) :
    ∀ (L : List Station) (r : String × ℚ × ℚ), nearestOf distf latlon L = some r →
      ∃ s, s ∈ L ∧ r = (s.station_id, s.lat, s.lon) ∧
        ∀ t ∈ L, distf latlon (s.lat, s.lon) ≤ distf latlon (t.lat, t.lon) := by
  intro L r hr
  cases L with
  | nil => exact absurd hr (by simp [nearestOf])
  | cons s0 rest =>
    have hmem := argminFirst_mem (s0, distf latlon (s0.lat, s0.lon))
      (rest.map (fun s => (s, distf latlon (s.lat, s.lon))))
    have hle := argminFirst_le (s0, distf latlon (s0.lat, s0.lon))
      (rest.map (fun s => (s, distf latlon (s.lat, s.lon))))
    unfold nearestOf at hr
    simp only [List.map_cons] at hr
    injection hr with hr
    obtain ⟨s, hsmem, hps⟩ :
        ∃ s, s ∈ s0 :: rest ∧
          (s, distf latlon (s.lat, s.lon)) =
            argminFirst (s0, distf latlon (s0.lat, s0.lon))
              (rest.map (fun s => (s, distf latlon (s.lat, s.lon)))) := by
      rcases hmem with h | h
      · exact ⟨s0, List.mem_cons_self _ _, h.symm⟩
      · rcases List.mem_map.mp h with ⟨s, hs, hps⟩
        exact ⟨s, List.mem_cons_of_mem _ hs, hps⟩
    refine ⟨s, hsmem, ?_, ?_⟩
    · rw [← hr, ← hps]
    · intro t ht
      have hc2 : distf latlon (s.lat, s.lon) =
          (argminFirst (s0, distf latlon (s0.lat, s0.lon))
            (rest.map (fun s => (s, distf latlon (s.lat, s.lon))))).2 := by
        rw [← hps]
      rcases List.mem_cons.mp ht with rfl | ht
      · rw [hc2]; exact hle.1
      · rw [hc2]
        exact hle.2 (t, distf latlon (t.lat, t.lon)) (List.mem_map.mpr ⟨t, ht, rfl⟩)

theorem bikeSurvivors_pos (df : List Station) (modes : List BikeMode) :
    ∀ s ∈ bikeSurvivors df modes, 0 < s.num_bikes_available := by
  intro s hs
  unfold bikeSurvivors at hs
  have := (List.mem_filter.mp hs).2
  exact of_decide_eq_true this

/-- C1: the bike search returns a station only if it survives the
availability and mode filters (hence has `num_bikes_available > 0`; a
station with zero bikes is never returned even if geographically
closest) and its distance is minimal among all surviving candidates
(the spec allows any one of exactly-tied stations, which is what the
first-minimum `idxmin` selection realises); if no candidate survives
filtering the result is `none`. -/
theorem bike_search_returns_nearest_available
    (distf : ℚ × ℚ → ℚ × ℚ → ℚ) (latlon : ℚ × ℚ)
    (df : List Station) (modes : List BikeMode) :
    (∀ r, get_bike_availability distf latlon df modes = some r →
      ∃ s, s ∈ bikeSurvivors df modes ∧ r = (s.station_id, s.lat, s.lon) ∧
        0 < s.num_bikes_available ∧
        ∀ t ∈ bikeSurvivors df modes,
          distf latlon (s.lat, s.lon) ≤ distf latlon (t.lat, t.lon)) ∧
    (bikeSurvivors df modes = [] →
      get_bike_availability distf latlon df modes = none) := by
  constructor
  · intro r hr
    rw [get_bike_availability_eq_survivors] at hr
    obtain ⟨s, hsmem, hrq, hmin⟩ := nearestOf_spec distf latlon _ r hr
    exact ⟨s, hsmem, hrq, bikeSurvivors_pos df modes s hsmem, hmin⟩
  · intro h
    rw [get_bike_availability_eq_survivors, h]
    rfl

/-- A taxicab distance on rational coordinates, used as a concrete
instance of the distance-function parameter in witnesses. -/
def exDistf (q p : ℚ × ℚ) : ℚ := |q.1 - p.1| + |q.2 - p.2|

/-- Closest station but with zero bikes: must never be returned. -/
def exA : Station := ⟨"A", 0, 0, 0, 4, 0, 0⟩

/-- Farther station with bikes available. -/
def exB : Station := ⟨"B", 1, 1, 5, 2, 5, 0⟩

def exDf : List Station := [exA, exB]

theorem bike_search_returns_nearest_available_witness :
    ∃ s, s ∈ bikeSurvivors exDf [] ∧
      (("B", 1, 1) : String × ℚ × ℚ) = (s.station_id, s.lat, s.lon) ∧
      0 < s.num_bikes_available ∧
      ∀ t ∈ bikeSurvivors exDf [],
        exDistf (0, 0) (s.lat, s.lon) ≤ exDistf (0, 0) (t.lat, t.lon) :=
  (bike_search_returns_nearest_available exDistf (0, 0) exDf []).1
    ("B", 1, 1) (by decide)

/-- C2: with exactly one requested mode the survivors (hence any
returned station) have that sub-count positive — the relevant column
always exists because `get_bike_availability` synthesizes both
`mechanical` and `ebike` columns before filtering (helpers.py:100-103);
with no mode or several modes, survivors satisfy
`mechanical > 0 ∨ ebike > 0`. -/
theorem bike_mode_filter_spec (df : List Station) :
    (∀ m : BikeMode, ∀ s ∈ bikeSurvivors df [m], 0 < subCount s m) ∧
    (∀ (distf : ℚ × ℚ → ℚ × ℚ → ℚ) (latlon : ℚ × ℚ) (m : BikeMode) r,
      get_bike_availability distf latlon df [m] = some r →
      ∃ s, s ∈ bikeSurvivors df [m] ∧ r = (s.station_id, s.lat, s.lon) ∧
        0 < subCount s m) ∧
    (∀ modes : List BikeMode, modes.length ≠ 1 →
      ∀ s ∈ bikeSurvivors df modes, 0 < s.mechanical ∨ 0 < s.ebike) := by
  refine ⟨?_, ?_, ?_⟩
  · intro m s hs
    unfold bikeSurvivors at hs
    have h1 := (List.mem_filter.mp hs).1
    exact of_decide_eq_true (List.mem_filter.mp h1).2
  · intro distf latlon m r hr
    rw [get_bike_availability_eq_survivors] at hr
    obtain ⟨s, hsmem, hrq, _⟩ := nearestOf_spec distf latlon _ r hr
    refine ⟨s, hsmem, hrq, ?_⟩
    unfold bikeSurvivors at hsmem
    have h1 := (List.mem_filter.mp hsmem).1
    exact of_decide_eq_true (List.mem_filter.mp h1).2
  · intro modes hlen s hs
    cases modes with
    | nil =>
      simp only [bikeSurvivors, List.mem_filter, Bool.or_eq_true,
        decide_eq_true_eq] at hs
      exact hs.1.2
    | cons m rest =>
      cases rest with
      | nil => exact absurd rfl hlen
      | cons m2 rest2 =>
        simp only [bikeSurvivors, List.mem_filter, Bool.or_eq_true,
          decide_eq_true_eq] at hs
        exact hs.1.2

/-- Closest station: 5 mechanical bikes, 0 ebikes. -/
def exM : Station := ⟨"M", 0, 0, 5, 2, 5, 0⟩

/-- Farther station with an ebike. -/
def exE : Station := ⟨"E", 1, 1, 3, 2, 0, 3⟩

def exDf2 : List Station := [exM, exE]

theorem bike_mode_filter_spec_witness :
    ∃ s, s ∈ bikeSurvivors exDf2 [BikeMode.ebike] ∧
      (("E", 1, 1) : String × ℚ × ℚ) = (s.station_id, s.lat, s.lon) ∧
      0 < subCount s BikeMode.ebike :=
  (bike_mode_filter_spec exDf2).2.1 exDistf (0, 0) BikeMode.ebike
    ("E", 1, 1) (by decide)

/-- A station-information row (`get_station_latlon` output) with the
columns `join_latlon` merges (helpers.py:72); `region_id` is optional
in the feed and handled by the `available_cols` projection, the claims
only concern `lat`/`lon`/`name`/`capacity`. -/
structure InfoRow where
  station_id : String
  lat : ℚ
  lon : ℚ
  name : String
  capacity : Int
deriving DecidableEq, Repr

/-- A row of the joined snapshot: the status row's id and remaining
payload plus the merged info columns, `none` standing for the NaN cells
a left merge produces on unmatched rows. -/
structure JoinedRow (α : Type) where
  station_id : String
  status : α
  lat : Option ℚ
  lon : Option ℚ
  name : Option String
  capacity : Option Int
deriving DecidableEq, Repr

/-- `join_latlon` (helpers.py:65-77): if either input frame is empty,
return an empty frame; otherwise normalize `station_id` to string on
both sides (identity here, ids are modelled as strings) and left-merge
the info columns onto the status rows on `station_id`: each status row
yields one output row per matching info row, in order, and a status row
with no match yields a single row with the merged columns unset. -/
def join_latlon {α : Type} (df1 : List (String × α)) (df2 : List InfoRow) :
    List (JoinedRow α) :=
  if df1.isEmpty || df2.isEmpty then []
  else
    df1.flatMap (fun p =>
      match df2.filter (fun i => i.station_id == p.1) with
      | [] => [⟨p.1, p.2, none, none, none, none⟩]
      | ms => ms.map (fun i =>
          ⟨p.1, p.2, some i.lat, some i.lon, some i.name, some i.capacity⟩))

/-- Concrete status frame with a single row, id "101", payload 7. -/
def exStatusRows : List (String × Int) := [("101", 7)]

/-- C3 counterexample: with a non-empty status input and an empty info
input, `join_latlon` short-circuits to the empty frame (helpers.py:66-67)
instead of keeping the status row with geography unset: the status row
with id "101" does not appear in the output. -/
theorem join_latlon_drops_rows_on_empty_info :
    exStatusRows ≠ [] ∧
      join_latlon exStatusRows ([] : List InfoRow) = [] ∧
      ¬∃ r ∈ join_latlon exStatusRows ([] : List InfoRow),
        r.station_id = "101" := by
  refine ⟨by decide, rfl, ?_⟩
  rintro ⟨r, hr, -⟩
  simp [join_latlon] at hr

/-- C3 amended: when the info input is empty (likewise when the status
input is empty), `join_latlon` returns the empty snapshot, dropping all
status rows, per the short-circuit at helpers.py:66-67. -/
theorem join_latlon_empty_info {α : Type} (df1 : List (String × α)) :
    join_latlon df1 ([] : List InfoRow) = [] := by
  simp [join_latlon]

/-- C4: with non-empty status and info inputs, a status row whose id
matches no info row still appears in the joined snapshot, with the
`lat`/`lon` cells unset (left merge, helpers.py:74-76). -/
theorem join_latlon_keeps_unmatched {α : Type} (df1 : List (String × α))
    (df2 : List InfoRow) (h2 : df2 ≠ []) (sid : String) (a : α)
    (hmem : (sid, a) ∈ df1) (hnomatch : ∀ i ∈ df2, i.station_id ≠ sid) :
    ∃ r ∈ join_latlon df1 df2, r.station_id = sid ∧ r.status = a ∧
      r.lat = none ∧ r.lon = none := by
  have h1e : df1.isEmpty = false := by
    cases df1 with
    | nil => cases hmem
    | cons x xs => rfl
  have h2e : df2.isEmpty = false := by
    cases df2 with
    | nil => exact absurd rfl h2
    | cons x xs => rfl
  have hfilter : df2.filter (fun i => i.station_id == sid) = [] := by
    rw [List.filter_eq_nil_iff]
    intro i hi
    simpa using hnomatch i hi
  refine ⟨⟨sid, a, none, none, none, none⟩, ?_, rfl, rfl, rfl, rfl⟩
  unfold join_latlon
  rw [h1e, h2e]
  simp only [Bool.or_self, Bool.false_eq_true, if_false]
  refine List.mem_flatMap.mpr ⟨(sid, a), hmem, ?_⟩
  rw [hfilter]
  exact List.mem_singleton.mpr rfl

/-- Concrete info frame whose only row has id "202". -/
def exInfoRows : List InfoRow := [⟨"202", 1, 2, "X", 10⟩]

theorem join_latlon_keeps_unmatched_witness :
    ∃ r ∈ join_latlon exStatusRows exInfoRows, r.station_id = "101" ∧
      r.status = 7 ∧ r.lat = none ∧ r.lon = none :=
  join_latlon_keeps_unmatched exStatusRows exInfoRows (by decide)
    "101" 7 (by decide) (by decide)

/-- Column-presence flags of the snapshot frame handed to
`apply_filters`: the code checks `bike_type_value in filtered.columns`
and `"name" in filtered.columns` (app.py:131, 135). -/
structure SnapshotCols where
  hasMechanical : Bool
  hasEbike : Bool
  hasName : Bool
deriving DecidableEq, Repr

/-- A snapshot row as read by `apply_filters` (app.py:123-140); `name`
is `none` where the joined frame left a NaN name. -/
structure FilterRow where
  num_bikes_available : Int
  num_docks_available : Int
  mechanical : Int
  ebike : Int
  name : Option String
deriving DecidableEq, Repr

def startsWithChars : List Char → List Char → Bool
  | [], _ => true
  | _ :: _, [] => false
  | q :: qs, c :: cs => q == c && startsWithChars qs cs

def containsChars (q : List Char) : List Char → Bool
  | [] => q.isEmpty
  | c :: cs => startsWithChars q (c :: cs) || containsChars q cs

/-- `Series.str.contains(search_text, case=False, na=False)` on one
cell: case-insensitive substring test. -/
def containsCI (name q : String) : Bool :=
  containsChars q.toLower.toList name.toLower.toList

def colPresent (cols : SnapshotCols) : BikeMode → Bool
  | .mechanical => cols.hasMechanical
  | .ebike => cols.hasEbike

def subCountF (r : FilterRow) : BikeMode → Int
  | .mechanical => r.mechanical
  | .ebike => r.ebike

/-- `apply_filters` (app.py:123-140): work on a copy of the input frame
and successively restrict it by the four sidebar predicates; a
requested bike-type column missing from the frame yields the empty
frame (`iloc[0:0]`); an empty search text or a missing `name` column
skips the name filter. -/
def apply_filters (min_bikes min_docks : Int) (bike_type_value : Option BikeMode)
    (search_text : String) (cols : SnapshotCols) (df : List FilterRow) :
    List FilterRow :=
  let filtered := df
  let filtered := if 0 < min_bikes then
      filtered.filter (fun r => decide (min_bikes ≤ r.num_bikes_available))
    else filtered
  let filtered := if 0 < min_docks then
      filtered.filter (fun r => decide (min_docks ≤ r.num_docks_available))
    else filtered
  let filtered :=
    match bike_type_value with
    | none => filtered
    | some m =>
      if colPresent cols m then
        filtered.filter (fun r => decide (0 < subCountF r m))
      else []
  let filtered :=
    if search_text ≠ "" ∧ cols.hasName then
      filtered.filter (fun r =>
        match r.name with
        | none => false
        | some n => containsCI n search_text)
    else filtered
  filtered

theorem ite_filter_sublist {α : Type} (c : Prop) [Decidable c]
    (p : α → Bool) (l : List α) :
    (if c then l.filter p else l).Sublist l := by
  split
  · exact List.filter_sublist l
  · exact List.Sublist.refl l

theorem mode_stage_sublist (btv : Option BikeMode) (cols : SnapshotCols)
    (l : List FilterRow) :
    (match btv with
     | none => l
     | some m =>
       if colPresent cols m then
         l.filter (fun r => decide (0 < subCountF r m))
       else []).Sublist l := by
  cases btv with
  | none => exact List.Sublist.refl l
  | some m =>
    show (if colPresent cols m then
        l.filter (fun r => decide (0 < subCountF r m))
      else []).Sublist l
    split
    · exact List.filter_sublist l
    · exact List.nil_sublist l

/-- C6: `apply_filters` works on a copy and only ever drops whole rows,
so its output is a sublist of the input (the input frame itself, being
a value in this embedding, is untouched); with every predicate unset
(thresholds 0, mode `any`, empty search text) the output is exactly the
input rows. -/
theorem apply_filters_pure (min_bikes min_docks : Int)
    (btv : Option BikeMode) (search_text : String) (cols : SnapshotCols)
    (df : List FilterRow) :
    (apply_filters min_bikes min_docks btv search_text cols df).Sublist df ∧
    apply_filters 0 0 none "" cols df = df := by
  constructor
  · exact ((ite_filter_sublist _ _ _).trans
      ((mode_stage_sublist btv cols _).trans
        ((ite_filter_sublist _ _ _).trans (ite_filter_sublist _ _ _))))
  · rfl

/-- One route of the routing-service response: geojson coordinates in
(lon, lat) order plus a duration in seconds. -/
structure Route where
  coordinates : List (ℚ × ℚ)
  duration : ℚ
deriving DecidableEq, Repr

/-- What `run_osrm` observes of the HTTP exchange (helpers.py:146-155):
a `requests.RequestException` (transport error, or `raise_for_status`
on a non-success status), or a parsed JSON body whose `routes` key may
be absent (`routejson.get('routes', [])`). -/
inductive OsrmResult where
  | transportError
  | badStatus
  | ok (routesField : Option (List Route))
deriving DecidableEq, Repr

/-- Python `round` to the nearest integer, ties to even. -/
def roundHalfEven (q : ℚ) : ℤ :=
  if q - ⌊q⌋ < 1/2 then ⌊q⌋
  else if 1/2 < q - ⌊q⌋ then ⌊q⌋ + 1
  else if ⌊q⌋ % 2 = 0 then ⌊q⌋ else ⌊q⌋ + 1

/-- `round(x, 1)` (helpers.py:159): round at one decimal place. -/
def round1 (q : ℚ) : ℚ := (roundHalfEven (q * 10) : ℚ) / 10

/-- `run_osrm` (helpers.py:141-161): on a request exception return the
none pair; otherwise read `routes` (defaulting to `[]` when absent),
return the none pair when it is empty, and otherwise swap each
(lon, lat) coordinate to (lat, lon) and convert the duration from
seconds to minutes rounded to one decimal place.  The function is
total: every branch returns a pair, no exception escapes. -/
def run_osrm (resp : OsrmResult) : Option (List (ℚ × ℚ)) × Option ℚ :=
  match resp with
  | .transportError => (none, none)
  | .badStatus => (none, none)
  | .ok routesField =>
    match routesField.getD [] with
    | [] => (none, none)
    | r0 :: _ =>
      (some (r0.coordinates.map (fun p => (p.2, p.1))),
       some (round1 (r0.duration / 60)))

/-- C7: on every successful response with a non-empty route list,
`run_osrm` swaps each polyline coordinate from (lon, lat) to (lat, lon)
and reports the duration in minutes rounded to one decimal place; in
particular duration 630 s yields 10.5 min and the spec's example
coordinates are swapped pairwise. -/
theorem run_osrm_unit_conversion :
    (∀ (r0 : Route) (rest : List Route),
      run_osrm (.ok (some (r0 :: rest))) =
        (some (r0.coordinates.map (fun p => (p.2, p.1))),
         some (round1 (r0.duration / 60)))) ∧
    run_osrm (.ok (some
        [⟨[(-7398/100, 4075/100), (-7399/100, 4076/100)], 630⟩])) =
      (some [(4075/100, -7398/100), (4076/100, -7399/100)],
       some (21/2)) := by
  constructor
  · intro r0 rest
    rfl
  · norm_num [run_osrm, round1, roundHalfEven]

/-- C8: on a transport error, a non-success HTTP status, a response
without a `routes` key, or an empty route list, `run_osrm` returns the
(none, none) pair; being a total function of the observed response, it
raises nothing into the caller. -/
theorem run_osrm_failure_none :
    run_osrm .transportError = (none, none) ∧
    run_osrm .badStatus = (none, none) ∧
    run_osrm (.ok none) = (none, none) ∧
    run_osrm (.ok (some [])) = (none, none) :=
  ⟨rfl, rfl, rfl, rfl⟩

/-- The optional nested `num_bikes_available_types` value of one status
record; each sub-type key may be absent (`fillna(0)` applies). -/
structure BikeTypesVal where
  mechanical : Option Int
  ebike : Option Int
deriving DecidableEq, Repr

/-- One raw record of the station-status feed (`data.stations[i]`);
`types` is `none` when the record lacks the
`num_bikes_available_types` key. -/
structure RawStation where
  station_id : String
  is_renting : Int
  is_returning : Int
  num_bikes_available : Int
  num_docks_available : Int
  last_reported : Int
  types : Option BikeTypesVal
deriving DecidableEq, Repr

/-- One row of `query_station_status`'s output frame.  Cells that a
misaligned `pd.concat` can leave as NaN are `Option`s; `station_id` is
the column after `astype(str)`, which renders a NaN cell as "nan".
Timestamps stay as their epoch integers: `pd.to_datetime` is injective
on them and no claim depends on the instant representation. -/
structure StatusRow where
  station_id : String
  is_renting : Option Int
  is_returning : Option Int
  num_bikes_available : Option Int
  num_docks_available : Option Int
  last_reported : Option Int
  last_updated : Option Int
  mechanical : Option Int
  ebike : Option Int
deriving DecidableEq, Repr

/-- `drop_duplicates(['station_id', 'last_reported'])`, keep-first, on
index-labelled rows (helpers.py:29). -/
def dropDuplicatesBy (seen : List (String × Int)) :
    List (Nat × RawStation) → List (Nat × RawStation)
  | [] => []
  | (i, s) :: rest =>
    if (s.station_id, s.last_reported) ∈ seen then
      dropDuplicatesBy seen rest
    else
      (i, s) :: dropDuplicatesBy ((s.station_id, s.last_reported) :: seen) rest

def insertSorted (x : Nat) : List Nat → List Nat
  | [] => [x]
  | y :: ys => if x ≤ y then x :: y :: ys else y :: insertSorted x ys

def sortNat (l : List Nat) : List Nat := l.foldr insertSorted []

/-- The index union `pd.concat(axis=1)` performs when the two frames'
integer indexes differ: the sorted union of the labels. -/
def indexUnion (a b : List Nat) : List Nat := sortNat ((a ++ b).dedup)

/-- `query_station_status` (helpers.py:16-47) after a successful fetch,
applied to the parsed feed (`last_updated`, `data.stations`).
DataFrame rows carry their integer index labels: the boolean
`is_renting`/`is_returning` mask and `drop_duplicates` keep the
original labels, `pd.json_normalize` produces fresh labels `0..m-1`,
and `pd.concat([...], axis=1)` outer-joins the two frames on those
labels — the index misalignment present in the source is reproduced
faithfully.  The `num_bikes_available_types` column exists iff some
record of the feed carries the key; when it is absent both sub-count
columns are synthesized as 0 (helpers.py:42-44). -/
def query_station_status (last_updated : Int) (stations : List RawStation) :
    List StatusRow :=
  if stations.isEmpty then []
  else
    let df := dropDuplicatesBy []
      ((stations.enum).filter
        (fun p => decide (p.2.is_renting = 1) && decide (p.2.is_returning = 1)))
    let hasTypesCol := stations.any (fun s => s.types.isSome)
    if hasTypesCol then
      let bike_types : List (Nat × (Int × Int)) :=
        (df.map (fun p =>
          match p.2.types with
          | some t => (t.mechanical.getD 0, t.ebike.getD 0)
          | none => (0, 0))).enum
      let labels := indexUnion (df.map (fun p => p.1))
        (bike_types.map (fun p => p.1))
      labels.map (fun i =>
        let base := df.lookup i
        let bt := bike_types.lookup i
        { station_id :=
            match base with
            | some s => s.station_id
            | none => "nan"
          is_renting := base.map (fun s => s.is_renting)
          is_returning := base.map (fun s => s.is_returning)
          num_bikes_available := base.map (fun s => s.num_bikes_available)
          num_docks_available := base.map (fun s => s.num_docks_available)
          last_reported := base.map (fun s => s.last_reported)
          last_updated := base.map (fun _ => last_updated)
          mechanical := bt.map (fun b => b.1)
          ebike := bt.map (fun b => b.2) })
    else
      df.map (fun p =>
        { station_id := p.2.station_id
          is_renting := some p.2.is_renting
          is_returning := some p.2.is_returning
          num_bikes_available := some p.2.num_bikes_available
          num_docks_available := some p.2.num_docks_available
          last_reported := some p.2.last_reported
          last_updated := some last_updated
          mechanical := some 0
          ebike := some 0 })

/-- A feed with the `num_bikes_available_types` column in which one
station is not renting and the other is: the boolean mask leaves the
status frame with index `[1]` while `pd.json_normalize` re-indexes the
sub-count frame as `[0]`, so `pd.concat(axis=1)` outer-joins to index
`[0, 1]` and manufactures a phantom row with NaN status fields. -/
def exBadFeed : List RawStation :=
  [⟨"a", 0, 1, 1, 1, 100, some ⟨some 1, some 0⟩⟩,
   ⟨"b", 1, 1, 2, 2, 200, some ⟨some 2, some 0⟩⟩]

/-- C5, code evaluated at the failing input: the output of
`query_station_status` on `exBadFeed` contains a row whose
`is_renting` is not 1 (a NaN-status phantom row with id "nan" carrying
station b's sub-counts), violating the claim — while the claim's own
single-station example (one station with `is_renting = 0`) does yield
zero rows. -/
theorem query_station_status_renting_violation :
    (∃ r ∈ query_station_status 0 exBadFeed, r.is_renting ≠ some 1) ∧
    query_station_status 0
      [⟨"a", 0, 1, 1, 1, 100, some ⟨some 1, some 0⟩⟩] = [] := by
  constructor
  · refine ⟨⟨"nan", none, none, none, none, none, none, some 2, some 0⟩,
      ?_, by decide⟩
    decide
  · decide

/-- The `st.session_state` keys touched by the lookup flow
(app.py:158-194). -/
structure SessionState where
  user_location : Option (ℚ × ℚ)
  nearest_bike_station : Option (String × ℚ × ℚ)
  nearest_dock_station : Option (String × ℚ × ℚ)
  route_coordinates : Option (List (ℚ × ℚ))
  route_duration : Option ℚ
deriving DecidableEq, Repr

/-- Initial session state (app.py:158-167): every key is `None`. -/
def initState : SessionState := ⟨none, none, none, none, none⟩

inductive LookupType where
  | bike
  | dock
deriving DecidableEq, Repr

/-- `modes = [bike_type_value] if bike_type_value else []`
(app.py:179). -/
def modesOf : Option BikeMode → List BikeMode
  | some m => [m]
  | none => []

/-- `lookup_and_store_nearest` (app.py:170-194): a failed geocode
(`geores = none`) warns and leaves the state untouched; otherwise the
coordinate is stored, the requested resolver runs over the snapshot,
its result is stored and the opposite stored result is cleared, and
finally the route pair is stored from the routing response when a
station was found and cleared otherwise.  The routing response `resp`
stands for the external OSRM exchange. -/
def lookup_and_store_nearest (distf : ℚ × ℚ → ℚ × ℚ → ℚ)
    (geores : Option (ℚ × ℚ)) (lookup_type : LookupType)
    (bike_type_value : Option BikeMode) (stations : List Station)
    (resp : OsrmResult) (st : SessionState) : SessionState :=
  match geores with
  | none => st
  | some coords =>
    match lookup_type with
    | .bike =>
      let nearest :=
        get_bike_availability distf coords stations (modesOf bike_type_value)
      let st2 := { st with
        user_location := some coords
        nearest_bike_station := nearest
        nearest_dock_station := none }
      match nearest with
      | some _ => { st2 with
          route_coordinates := (run_osrm resp).1
          route_duration := (run_osrm resp).2 }
      | none => { st2 with
          route_coordinates := none
          route_duration := none }
    | .dock =>
      let nearest := get_dock_availability distf coords stations
      let st2 := { st with
        user_location := some coords
        nearest_dock_station := nearest
        nearest_bike_station := none }
      match nearest with
      | some _ => { st2 with
          route_coordinates := (run_osrm resp).1
          route_duration := (run_osrm resp).2 }
      | none => { st2 with
          route_coordinates := none
          route_duration := none }

/-- Session states reachable from the initial state through lookups. -/
inductive Reachable : SessionState → Prop
  | init : Reachable initState
  | step (distf : ℚ × ℚ → ℚ × ℚ → ℚ) (geores : Option (ℚ × ℚ))
      (lookup_type : LookupType) (bike_type_value : Option BikeMode)
      (stations : List Station) (resp : OsrmResult) {st : SessionState} :
      Reachable st →
      Reachable (lookup_and_store_nearest distf geores lookup_type
        bike_type_value stations resp st)

theorem lookup_bike_fields (distf : ℚ × ℚ → ℚ × ℚ → ℚ) (c : ℚ × ℚ)
    (btv : Option BikeMode) (stations : List Station) (resp : OsrmResult)
    (st : SessionState) :
    (lookup_and_store_nearest distf (some c) .bike btv stations resp
        st).nearest_bike_station =
      get_bike_availability distf c stations (modesOf btv) ∧
    (lookup_and_store_nearest distf (some c) .bike btv stations resp
        st).nearest_dock_station = none := by
  unfold lookup_and_store_nearest
  cases h : get_bike_availability distf c stations (modesOf btv) <;> simp [h]

theorem lookup_dock_fields (distf : ℚ × ℚ → ℚ × ℚ → ℚ) (c : ℚ × ℚ)
    (btv : Option BikeMode) (stations : List Station) (resp : OsrmResult)
    (st : SessionState) :
    (lookup_and_store_nearest distf (some c) .dock btv stations resp
        st).nearest_dock_station =
      get_dock_availability distf c stations ∧
    (lookup_and_store_nearest distf (some c) .dock btv stations resp
        st).nearest_bike_station = none := by
  unfold lookup_and_store_nearest
  cases h : get_dock_availability distf c stations <;> simp [h]

/-- C9: a bike lookup that resolves a coordinate stores the resolver's
result and clears the stored dock result, a dock lookup does the
mirror image, and consequently every reachable session state has at
most one of the two stored results non-null. -/
theorem session_nearest_mutual_exclusion :
    (∀ st, Reachable st →
      st.nearest_bike_station = none ∨ st.nearest_dock_station = none) ∧
    (∀ (distf : ℚ × ℚ → ℚ × ℚ → ℚ) (c : ℚ × ℚ) (btv : Option BikeMode)
        (stations : List Station) (resp : OsrmResult) (st : SessionState),
      (lookup_and_store_nearest distf (some c) .bike btv stations resp
          st).nearest_bike_station =
        get_bike_availability distf c stations (modesOf btv) ∧
      (lookup_and_store_nearest distf (some c) .bike btv stations resp
          st).nearest_dock_station = none ∧
      (lookup_and_store_nearest distf (some c) .dock btv stations resp
          st).nearest_dock_station =
        get_dock_availability distf c stations ∧
      (lookup_and_store_nearest distf (some c) .dock btv stations resp
          st).nearest_bike_station = none) := by
  constructor
  · intro st hst
    induction hst with
    | init => exact Or.inl rfl
    | step distf geores lt btv stations resp hst ih =>
      cases geores with
      | none => exact ih
      | some c =>
        cases lt with
        | bike =>
          exact Or.inr (lookup_bike_fields distf c btv stations resp _).2
        | dock =>
          exact Or.inl (lookup_dock_fields distf c btv stations resp _).2
  · intro distf c btv stations resp st
    exact ⟨(lookup_bike_fields distf c btv stations resp st).1,
      (lookup_bike_fields distf c btv stations resp st).2,
      (lookup_dock_fields distf c btv stations resp st).1,
      (lookup_dock_fields distf c btv stations resp st).2⟩

theorem session_nearest_mutual_exclusion_witness :
    initState.nearest_bike_station = none ∨
      initState.nearest_dock_station = none :=
  session_nearest_mutual_exclusion.1 initState Reachable.init

/-- A snapshot row as stored in a DataFrame object that the resolvers
may mutate: the station fields plus cells for the columns the
resolvers assign in place (`mechanical`, `ebike`, `distance`); a cell
is meaningful only when the owning object's column flag is set. -/
structure MutRow where
  station_id : String
  lat : ℚ
  lon : ℚ
  num_bikes_available : Int
  num_docks_available : Int
  mechanical : Int
  ebike : Int
  distance : ℚ
deriving DecidableEq, Repr

/-- A DataFrame object on the Python heap: its rows plus presence
flags for the columns the resolvers may add in place. -/
structure DfObj where
  hasMechanical : Bool
  hasEbike : Bool
  hasDistance : Bool
  rows : List MutRow
deriving DecidableEq, Repr

/-- The heap of DataFrame objects; a DataFrame variable is an index
into it. -/
abbrev Store := List DfObj

def subCountM (r : MutRow) : BikeMode → Int
  | .mechanical => r.mechanical
  | .ebike => r.ebike

/-- `get_bike_availability` at heap level (helpers.py:97-121):
`df = df.copy().reset_index(drop=True)` allocates a fresh object and
rebinds the local name to it; the `df['mechanical'] = 0`,
`df['ebike'] = 0` and `df['distance'] = ...` assignments mutate that
fresh object in place; the boolean-mask filters rebind the local name
to new frames; the caller's object is only ever read.  Returns the
result together with the heap after the call. -/
def get_bike_availability_heap (distf : ℚ × ℚ → ℚ × ℚ → ℚ)
    (latlon : ℚ × ℚ) (heap : Store) (df_ref : Nat)
    (modes : List BikeMode) : Option (String × ℚ × ℚ) × Store :=
  match heap.get? df_ref with
  | none => (none, heap)
  | some caller =>
    let localRef := heap.length
    let heap1 := heap ++ [caller]
    let v1 := if caller.hasMechanical then caller else
      { caller with
        hasMechanical := true,
        rows := caller.rows.map (fun r => { r with mechanical := 0 }) }
    let v2 := if v1.hasEbike then v1 else
      { v1 with
        hasEbike := true,
        rows := v1.rows.map (fun r => { r with ebike := 0 }) }
    let v3 := { v2 with
      hasDistance := true,
      rows := v2.rows.map (fun r =>
        { r with distance := distf latlon (r.lat, r.lon) }) }
    let heap2 := heap1.set localRef v3
    let afterMode :=
      match modes with
      | [m] => v3.rows.filter (fun r => decide (0 < subCountM r m))
      | _ => v3.rows.filter
          (fun r => decide (0 < r.mechanical) || decide (0 < r.ebike))
    let afterBikes := afterMode.filter
      (fun r => decide (0 < r.num_bikes_available))
    let result :=
      match afterBikes with
      | [] => none
      | h :: t =>
        let c := (argminFirst (h, h.distance)
          (t.map (fun r => (r, r.distance)))).1
        some (c.station_id, c.lat, c.lon)
    (result, heap2)

/-- `get_dock_availability` at heap level (helpers.py:124-136): same
copy-then-mutate discipline, with only the `distance` column added. -/
def get_dock_availability_heap (distf : ℚ × ℚ → ℚ × ℚ → ℚ)
    (latlon : ℚ × ℚ) (heap : Store) (df_ref : Nat) :
    Option (String × ℚ × ℚ) × Store :=
  match heap.get? df_ref with
  | none => (none, heap)
  | some caller =>
    let localRef := heap.length
    let heap1 := heap ++ [caller]
    let v1 := { caller with
      hasDistance := true,
      rows := caller.rows.map (fun r =>
        { r with distance := distf latlon (r.lat, r.lon) }) }
    let heap2 := heap1.set localRef v1
    let afterDocks := v1.rows.filter
      (fun r => decide (0 < r.num_docks_available))
    let result :=
      match afterDocks with
      | [] => none
      | h :: t =>
        let c := (argminFirst (h, h.distance)
          (t.map (fun r => (r, r.distance)))).1
        some (c.station_id, c.lat, c.lon)
    (result, heap2)

theorem set_fresh_preserves (heap : Store) (x v : DfObj) (i : Nat)
    (hi : i < heap.length) :
    ((heap ++ [x]).set heap.length v).get? i = heap.get? i := by
  rw [List.get?_eq_getElem?, List.get?_eq_getElem?]
  rw [List.getElem?_set_ne (by omega)]
  exact List.getElem?_append_left hi

/-- C10: neither resolver mutates any pre-existing heap object — in
particular the caller's dataframe: after either call every index below
the original heap length still holds its original object, so the
temporary `distance` column and any synthesized `mechanical`/`ebike`
columns exist only on the fresh copy and none of the caller's rows or
values change. -/
theorem resolvers_do_not_mutate_caller (distf : ℚ × ℚ → ℚ × ℚ → ℚ)
    (latlon : ℚ × ℚ) (heap : Store) (df_ref i : Nat)
    (hi : i < heap.length) (modes : List BikeMode) :
    (get_bike_availability_heap distf latlon heap df_ref modes).2.get? i
        = heap.get? i ∧
    (get_dock_availability_heap distf latlon heap df_ref).2.get? i
        = heap.get? i := by
  constructor
  · unfold get_bike_availability_heap
    cases h : heap.get? df_ref with
    | none => rfl
    | some caller => exact set_fresh_preserves heap caller _ i hi
  · unfold get_dock_availability_heap
    cases h : heap.get? df_ref with
    | none => rfl
    | some caller => exact set_fresh_preserves heap caller _ i hi

/-- A one-object heap for the witness: one station, no transient
columns present. -/
def exHeap : Store := [⟨true, true, false, [⟨"A", 0, 0, 1, 1, 1, 0, 0⟩]⟩]

theorem resolvers_do_not_mutate_caller_witness :
    (get_bike_availability_heap exDistf (0, 0) exHeap 0 []).2.get? 0
        = exHeap.get? 0 ∧
    (get_dock_availability_heap exDistf (0, 0) exHeap 0).2.get? 0
        = exHeap.get? 0 :=
  resolvers_do_not_mutate_caller exDistf (0, 0) exHeap 0 0 (by decide) []
